import Mathlib

set_option maxRecDepth 100000

/-!
Verification of the World2 simulation engine (world2.cpp): the DYNAMO-style
interpolation primitives (clip, tabhl, table) and the per-tick state-advance
algorithm of the world class.  Real numbers of the source (C++ double) are
embedded as exact rationals; the two fatal error kinds are an explicit error
type and fallible functions return Except.  The C++ truncating cast
static_cast<size_t> applied to a non-negative value is embedded as
Int.toNat of the floor.
-/

/-- The two fatal error kinds of the engine: a lookup table whose length does
not match its declared domain, and an out-of-domain input to the
bounds-checked lookup. -/
inductive Err where
  | DomainSizeError
  | DomainRangeError
deriving DecidableEq, Repr

instance {ε α : Type} [DecidableEq ε] [DecidableEq α] : DecidableEq (Except ε α) := by
  intro a b
  cases a <;> cases b
  case error.error e1 e2 =>
    exact if h : e1 = e2 then .isTrue (by rw [h]) else .isFalse (by intro hc; cases hc; exact h rfl)
  case ok.ok v1 v2 =>
    exact if h : v1 = v2 then .isTrue (by rw [h]) else .isFalse (by intro hc; cases hc; exact h rfl)
  case error.ok e v => exact .isFalse (by intro hc; cases hc)
  case ok.error v e => exact .isFalse (by intro hc; cases hc)

namespace dynamo

/-- DYNAMO CLIP(): returns a while c >= d, otherwise b (world2.cpp line 104). -/
def clip (a b c d : ℚ) : ℚ :=
  if c ≥ d then a else b

/-- The expected table length computed at world2.cpp line 116:
static_cast<size_t>((xend - xstart) / xstep + 1). -/
def expectedRange (xstart xend xstep : ℚ) : ℕ :=
  (⌊(xend - xstart) / xstep + 1⌋).toNat

/-- The in-domain segment lookup and linear interpolation of tabhl
(world2.cpp lines 133-138); ytbl[i] is embedded as List.getD i 0. -/
def interpolate (ytbl : List ℚ) (x xstart xstep : ℚ) (range : ℕ) : ℚ :=
  let i : ℕ := (⌊(x - xstart) / xstep⌋).toNat
  if i = range - 1 then ytbl.getD i 0
  else ytbl.getD i 0 + (x - xstart - xstep * i) * (ytbl.getD (i + 1) 0 - ytbl.getD i 0) / xstep

/-- The body of tabhl after the size check (world2.cpp lines 120-138):
clamp to the boundary entry outside the domain, interpolate inside. -/
def tabhlBody (ytbl : List ℚ) (x xstart xend xstep : ℚ) (range : ℕ) : ℚ :=
  if xstart < xend then
    if x < xstart then ytbl.headD 0
    else if xend < x then ytbl.getLastD 0
    else interpolate ytbl x xstart xstep range
  else
    if x < xend then ytbl.getLastD 0
    else if xstart < x then ytbl.headD 0
    else interpolate ytbl x xstart xstep range

/-- DYNAMO TABHL() (world2.cpp lines 114-139): clamped piecewise-linear
lookup; fails if the table length does not match the declared domain. -/
def tabhl (ytbl : List ℚ) (x xstart xend xstep : ℚ) : Except Err ℚ :=
  let range := expectedRange xstart xend xstep
  if ytbl.length ≠ range then .error .DomainSizeError
  else .ok (tabhlBody ytbl x xstart xend xstep range)

/-- The value tabhl returns when its size check passes. -/
def lookup (ytbl : List ℚ) (x xstart xend xstep : ℚ) : ℚ :=
  tabhlBody ytbl x xstart xend xstep (expectedRange xstart xend xstep)

/-- DYNAMO TABLE() (world2.cpp lines 146-157): bounds-checked piecewise-linear
lookup; fails when x lies outside the domain, otherwise defers to tabhl. -/
def table (ytbl : List ℚ) (x xstart xend xstep : ℚ) : Except Err ℚ :=
  if xstart < xend then
    if x < xstart ∨ xend < x then .error .DomainRangeError
    else tabhl ytbl x xstart xend xstep
  else
    if x < xend ∨ xstart < x then .error .DomainRangeError
    else tabhl ytbl x xstart xend xstep

end dynamo

namespace world2

/-- The immutable parameter set of the engine (world2.cpp lines 463-502);
every default reproduces the original calibration. -/
structure constants where
  brn      : ℚ := 0.04
  brn1     : ℚ := 0.04
  ciafi    : ℚ := 0.2
  ciafn    : ℚ := 0.3
  ciaft    : ℚ := 15
  cidn     : ℚ := 0.025
  cidn1    : ℚ := 0.025
  cign     : ℚ := 0.05
  cign1    : ℚ := 0.05
  cii      : ℚ := 0.4e9
  drn      : ℚ := 0.028
  drn1     : ℚ := 0.028
  ecirn    : ℚ := 1
  fc       : ℚ := 1
  fc1      : ℚ := 1
  fn       : ℚ := 1
  la       : ℚ := 135e6
  nri      : ℚ := 900e9
  nrun     : ℚ := 1
  nrun1    : ℚ := 1
  pdn      : ℚ := 26.5
  pi       : ℚ := 1.65e9
  poli     : ℚ := 0.2e9
  poln     : ℚ := 1
  poln1    : ℚ := 1
  pols     : ℚ := 3.6e9
  qls      : ℚ := 1
  swt1     : ℚ := 1970
  swt2     : ℚ := 1970
  swt3     : ℚ := 1970
  swt4     : ℚ := 1970
  swt5     : ℚ := 1970
  swt6     : ℚ := 1970
  swt7     : ℚ := 1970
  time     : ℚ := 1900
  dt       : ℚ := 0.2
  endtime  : ℚ := 2100

/-- The per-tick variable snapshot (world2.cpp lines 504-555, struct named
variables in the source): 5 levels, 7 rates, 28 auxiliaries and the calendar
time, all zero until computed. -/
structure snapshot where
  ci    : ℚ := 0
  ciaf  : ℚ := 0
  nr    : ℚ := 0
  p     : ℚ := 0
  pol   : ℚ := 0
  br    : ℚ := 0
  cid   : ℚ := 0
  cig   : ℚ := 0
  dr    : ℚ := 0
  nrur  : ℚ := 0
  pola  : ℚ := 0
  polg  : ℚ := 0
  brcm  : ℚ := 0
  brfm  : ℚ := 0
  brmm  : ℚ := 0
  brpm  : ℚ := 0
  cfifr : ℚ := 0
  cim   : ℚ := 0
  ciqr  : ℚ := 0
  cir   : ℚ := 0
  cira  : ℚ := 0
  cr    : ℚ := 0
  drcm  : ℚ := 0
  drfm  : ℚ := 0
  drmm  : ℚ := 0
  drpm  : ℚ := 0
  ecir  : ℚ := 0
  fcm   : ℚ := 0
  fpci  : ℚ := 0
  fpm   : ℚ := 0
  fr    : ℚ := 0
  msl   : ℚ := 0
  nrem  : ℚ := 0
  nrfr  : ℚ := 0
  nrmm  : ℚ := 0
  polat : ℚ := 0
  polcm : ℚ := 0
  polr  : ℚ := 0
  ql    : ℚ := 0
  qlc   : ℚ := 0
  qlf   : ℚ := 0
  qlm   : ℚ := 0
  qlp   : ℚ := 0
  time  : ℚ := 0

/-- BRMMT, table of equation 3.1. -/
def brmmt : List ℚ := [1.2, 1, 0.85, 0.75, 0.7, 0.7]

/-- NREMT, table of equation 6.1. -/
def nremt : List ℚ := [0, 0.15, 0.5, 0.85, 1]

/-- DRMMT, table of equation 11.1. -/
def drmmt : List ℚ := [3, 1.8, 1, 0.8, 0.7, 0.6, 0.53, 0.5, 0.5, 0.5, 0.5]

/-- DRPMT, table of equation 12.1. -/
def drpmt : List ℚ := [0.92, 1.3, 2, 3.2, 4.8, 6.8, 9.2]

/-- DRFMT, table of equation 13.1. -/
def drfmt : List ℚ := [30, 3, 2, 1.4, 1, 0.7, 0.6, 0.5, 0.5]

/-- DRCMT, table of equation 14.1. -/
def drcmt : List ℚ := [0.9, 1, 1.2, 1.5, 1.9, 3]

/-- BRCMT, table of equation 16.1. -/
def brcmt : List ℚ := [1.05, 1, 0.9, 0.7, 0.6, 0.55]

/-- BRFMT, table of equation 17.1. -/
def brfmt : List ℚ := [0, 1, 1.6, 1.9, 2]

/-- BRPMT, table of equation 18.1. -/
def brpmt : List ℚ := [1.02, 0.9, 0.7, 0.4, 0.25, 0.15, 0.1]

/-- FCMT, table of equation 20.1. -/
def fcmt : List ℚ := [2.4, 1, 0.6, 0.4, 0.3, 0.2]

/-- FPCIT, table of equation 21.1. -/
def fpcit : List ℚ := [0.5, 1, 1.4, 1.7, 1.9, 2.05, 2.2]

/-- CIMT, table of equation 26.1. -/
def cimt : List ℚ := [0.1, 1, 1.8, 2.4, 2.8, 3]

/-- FPMT, table of equation 28.1. -/
def fpmt : List ℚ := [1.02, 0.9, 0.65, 0.35, 0.2, 0.1, 0.05]

/-- POLCMT, table of equation 32.1. -/
def polcmt : List ℚ := [0.05, 1, 3, 5.4, 7.4, 8]

/-- POLATT, table of equation 34.1. -/
def polatt : List ℚ := [0.6, 2.5, 5, 8, 11.5, 15.5, 20]

/-- CFIFRT, table of equation 36.1. -/
def cfifrt : List ℚ := [1, 0.6, 0.3, 0.15, 0.1]

/-- QLMT, table of equation 38.1. -/
def qlmt : List ℚ := [0.2, 1, 1.7, 2.3, 2.7, 2.9]

/-- QLCT, table of equation 39.1. -/
def qlct : List ℚ := [2, 1.3, 1, 0.75, 0.55, 0.45, 0.38, 0.3, 0.25, 0.22, 0.2]

/-- QLFT, table of equation 40.1. -/
def qlft : List ℚ := [0, 1, 1.8, 2.4, 2.7]

/-- QLPT, table of equation 41.1. -/
def qlpt : List ℚ := [1.04, 0.85, 0.6, 0.3, 0.15, 0.05, 0.02]

/-- NRMMT, table of equation 42.1. -/
def nrmmt : List ℚ := [0, 1, 1.8, 2.4, 2.9, 3.3, 3.6, 3.8, 3.9, 3.95, 4]

/-- CIQRT, table of equation 43.1. -/
def ciqrt : List ℚ := [0.7, 0.8, 1, 1.5, 2]

/-- The level-integration block of world::tick (world2.cpp lines 571-592):
on the first call (no previous snapshot) the levels and time come directly
from the initial constants; afterwards each level takes one explicit Euler
step from the previous snapshot and time advances by dt.  All other fields
are zero, like the local variable k of the source. -/
def levels (c : constants) (prev : Option snapshot) : snapshot :=
  match prev with
  | some j =>
    { p    := j.p + c.dt * (j.br - j.dr)
      nr   := j.nr + c.dt * (-j.nrur)
      ci   := j.ci + c.dt * (j.cig - j.cid)
      pol  := j.pol + c.dt * (j.polg - j.pola)
      ciaf := j.ciaf + (c.dt / c.ciaft) * ((j.cfifr * j.ciqr) - j.ciaf)
      time := j.time + c.dt }
  | none =>
    { p    := c.pi
      nr   := c.nri
      ci   := c.cii
      pol  := c.poli
      ciaf := c.ciafi
      time := c.time }

/-- The auxiliary block of world::tick (world2.cpp lines 594-625), in the
source's dependency order; the bounds-checked lookups can fail. -/
def auxiliaries (c : constants) (k : snapshot) : Except Err snapshot := do
  let nrfr := k.nr / c.nri
  let nrem ← dynamo.table nremt nrfr 0 1 0.25
  let cir := k.ci / k.p
  let ecir := cir * (1 - k.ciaf) * nrem / (1 - c.ciafn)
  let msl := ecir / c.ecirn
  let brmm ← dynamo.tabhl brmmt msl 0 5 1
  let drmm ← dynamo.tabhl drmmt msl 0 5 0.5
  let cr := k.p / (c.la * c.pdn)
  let drcm ← dynamo.table drcmt cr 0 5 1
  let brcm ← dynamo.table brcmt cr 0 5 1
  let fcm ← dynamo.table fcmt cr 0 5 1
  let qlc ← dynamo.table qlct cr 0 5 0.5
  let cim ← dynamo.tabhl cimt msl 0 5 1
  let polr := k.pol / c.pols
  let fpm ← dynamo.table fpmt polr 0 60 10
  let drpm ← dynamo.table drpmt polr 0 60 10
  let brpm ← dynamo.table brpmt polr 0 60 10
  let polcm ← dynamo.tabhl polcmt cir 0 5 1
  let polat ← dynamo.table polatt polr 0 60 10
  let qlm ← dynamo.tabhl qlmt msl 0 5 1
  let qlp ← dynamo.table qlpt polr 0 60 10
  let nrmm ← dynamo.tabhl nrmmt msl 0 10 1
  let cira := cir * k.ciaf / c.ciafn
  let fpci ← dynamo.tabhl fpcit cira 0 6 1
  let fr := fpci * fcm * fpm * dynamo.clip c.fc c.fc1 c.swt7 k.time / c.fn
  let drfm ← dynamo.tabhl drfmt fr 0 2 0.25
  let brfm ← dynamo.tabhl brfmt fr 0 4 1
  let cfifr ← dynamo.tabhl cfifrt fr 0 2 0.5
  let qlf ← dynamo.tabhl qlft fr 0 4 1
  let ciqr ← dynamo.tabhl ciqrt (qlm / qlf) 0 2 0.5
  let ql := c.qls * qlm * qlc * qlf * qlp
  pure { k with
    nrfr := nrfr, nrem := nrem, cir := cir, ecir := ecir, msl := msl,
    brmm := brmm, drmm := drmm, cr := cr, drcm := drcm, brcm := brcm,
    fcm := fcm, qlc := qlc, cim := cim, polr := polr, fpm := fpm,
    drpm := drpm, brpm := brpm, polcm := polcm, polat := polat, qlm := qlm,
    qlp := qlp, nrmm := nrmm, cira := cira, fpci := fpci, fr := fr,
    drfm := drfm, brfm := brfm, cfifr := cfifr, qlf := qlf, ciqr := ciqr,
    ql := ql }

/-- The value the auxiliary block computes when every bounds check passes:
the same data flow with every lookup replaced by its in-range value. -/
def auxTotal (c : constants) (k : snapshot) : snapshot :=
  let nrfr := k.nr / c.nri
  let nrem := dynamo.lookup nremt nrfr 0 1 0.25
  let cir := k.ci / k.p
  let ecir := cir * (1 - k.ciaf) * nrem / (1 - c.ciafn)
  let msl := ecir / c.ecirn
  let brmm := dynamo.lookup brmmt msl 0 5 1
  let drmm := dynamo.lookup drmmt msl 0 5 0.5
  let cr := k.p / (c.la * c.pdn)
  let drcm := dynamo.lookup drcmt cr 0 5 1
  let brcm := dynamo.lookup brcmt cr 0 5 1
  let fcm := dynamo.lookup fcmt cr 0 5 1
  let qlc := dynamo.lookup qlct cr 0 5 0.5
  let cim := dynamo.lookup cimt msl 0 5 1
  let polr := k.pol / c.pols
  let fpm := dynamo.lookup fpmt polr 0 60 10
  let drpm := dynamo.lookup drpmt polr 0 60 10
  let brpm := dynamo.lookup brpmt polr 0 60 10
  let polcm := dynamo.lookup polcmt cir 0 5 1
  let polat := dynamo.lookup polatt polr 0 60 10
  let qlm := dynamo.lookup qlmt msl 0 5 1
  let qlp := dynamo.lookup qlpt polr 0 60 10
  let nrmm := dynamo.lookup nrmmt msl 0 10 1
  let cira := cir * k.ciaf / c.ciafn
  let fpci := dynamo.lookup fpcit cira 0 6 1
  let fr := fpci * fcm * fpm * dynamo.clip c.fc c.fc1 c.swt7 k.time / c.fn
  let drfm := dynamo.lookup drfmt fr 0 2 0.25
  let brfm := dynamo.lookup brfmt fr 0 4 1
  let cfifr := dynamo.lookup cfifrt fr 0 2 0.5
  let qlf := dynamo.lookup qlft fr 0 4 1
  let ciqr := dynamo.lookup ciqrt (qlm / qlf) 0 2 0.5
  let ql := c.qls * qlm * qlc * qlf * qlp
  { k with
    nrfr := nrfr, nrem := nrem, cir := cir, ecir := ecir, msl := msl,
    brmm := brmm, drmm := drmm, cr := cr, drcm := drcm, brcm := brcm,
    fcm := fcm, qlc := qlc, cim := cim, polr := polr, fpm := fpm,
    drpm := drpm, brpm := brpm, polcm := polcm, polat := polat, qlm := qlm,
    qlp := qlp, nrmm := nrmm, cira := cira, fpci := fpci, fr := fr,
    drfm := drfm, brfm := brfm, cfifr := cfifr, qlf := qlf, ciqr := ciqr,
    ql := ql }

/-- The rate block of world::tick (world2.cpp lines 627-634): the seven
rates for the coming interval from the current levels and auxiliaries. -/
def rates (c : constants) (k : snapshot) : snapshot :=
  { k with
    br   := k.p * dynamo.clip c.brn c.brn1 c.swt1 k.time * k.brfm * k.brmm * k.brcm * k.brpm
    nrur := k.p * dynamo.clip c.nrun c.nrun1 c.swt2 k.time * k.nrmm
    dr   := k.p * dynamo.clip c.drn c.drn1 c.swt3 k.time * k.drmm * k.drpm * k.drfm * k.drcm
    cig  := k.p * k.cim * dynamo.clip c.cign c.cign1 c.swt4 k.time
    cid  := k.ci * dynamo.clip c.cidn c.cidn1 c.swt5 k.time
    polg := k.p * dynamo.clip c.poln c.poln1 c.swt6 k.time * k.polcm
    pola := k.pol / k.polat }

/-- The whole snapshot computation of world::tick (world2.cpp lines 569-635):
levels, then auxiliaries, then rates, for a given previous snapshot (none on
the first call, mirroring the time_j_exists_ flag). -/
def tick (c : constants) (prev : Option snapshot) : Except Err snapshot := do
  let k := levels c prev
  let k ← auxiliaries c k
  pure (rates c k)

/-- The engine: one immutable parameter set and the previous snapshot, if a
tick has already run (world2.cpp lines 457-647). -/
structure world where
  c : constants
  j : Option snapshot

/-- world::run_complete (world2.cpp lines 563-566): a previous snapshot
exists and its time is strictly past the end time. -/
def world.run_complete (w : world) : Bool :=
  match w.j with
  | none => false
  | some j => decide (j.time > w.c.endtime)

/-- One engine advance: tick computes the new snapshot from the stored one;
only on success is the new snapshot stored as j (world2.cpp line 637), and an
error leaves the engine exactly as it was, mirroring that the C++ assignment
j = k happens after every fallible computation. -/
def world.advance (w : world) : Except Err snapshot × world :=
  match tick w.c w.j with
  | .ok k => (.ok k, { w with j := some k })
  | .error e => (.error e, w)

/-- The default-calibration parameter set. -/
def defaultConstants : constants := {}

/-- The snapshot produced by the first tick of the default calibration. -/
def tick0 : snapshot := rates defaultConstants (auxTotal defaultConstants (levels defaultConstants none))

/-- The snapshot produced by the second tick of the default calibration. -/
def tick1 : snapshot := rates defaultConstants (auxTotal defaultConstants (levels defaultConstants (some tick0)))

/-- A parameter set with an enormous initial population: its crowding ratio
lies far outside the domain of the DRCMT lookup, so the very first tick
fails with DomainRangeError. -/
def crowdedConstants : constants := { pi := 1e12 }

/-- A parameter set whose seven policy switch times all lie before the
initial time and whose seven after-switch policy constants all differ from
their before-switch values, so that from the first tick on every time-gated
switch selects a changed value. -/
def policyConstants : constants :=
  { brn1 := 0.05, drn1 := 0.05, nrun1 := 0.5, cign1 := 0.1, cidn1 := 0.05,
    poln1 := 0.5, fc1 := 0.8,
    swt1 := 1890, swt2 := 1890, swt3 := 1890, swt4 := 1890, swt5 := 1890,
    swt6 := 1890, swt7 := 1890 }

/-- The second-tick snapshot when the first default tick is advanced under
the changed-policy parameter set. -/
def tick1policy : snapshot :=
  rates policyConstants (auxTotal policyConstants (levels policyConstants (some tick0)))

/-- The default parameter set with the end time moved to the initial time,
so that the second snapshot is the first whose time exceeds it. -/
def shortRunConstants : constants := { endtime := 1900 }

/-- The second-tick snapshot under the shortened run (the end time does not
enter the tick computation, so it equals the default second tick). -/
def tick1short : snapshot :=
  rates shortRunConstants (auxTotal shortRunConstants (levels shortRunConstants (some tick0)))

end world2

namespace dynamo

theorem ok_bind {α β : Type} (a : α) (f : α → Except Err β) :
    (Except.ok a >>= f) = f a := rfl

theorem error_bind {α β : Type} (e : Err) (f : α → Except Err β) :
    ((Except.error e : Except Err α) >>= f) = Except.error e := rfl

theorem pure_eq_ok {α : Type} (a : α) : (pure a : Except Err α) = Except.ok a := rfl

theorem tabhl_ok (ytbl : List ℚ) (x xstart xend xstep : ℚ)
    (h : ytbl.length = expectedRange xstart xend xstep) :
    tabhl ytbl x xstart xend xstep = .ok (lookup ytbl x xstart xend xstep) := by
  simp [tabhl, lookup, h]

theorem tabhl_size_error (ytbl : List ℚ) (x xstart xend xstep : ℚ)
    (h : ytbl.length ≠ expectedRange xstart xend xstep) :
    tabhl ytbl x xstart xend xstep = .error .DomainSizeError := by
  simp [tabhl, h]

theorem table_ok_asc (ytbl : List ℚ) (x xstart xend xstep : ℚ)
    (hlen : ytbl.length = expectedRange xstart xend xstep)
    (hord : xstart < xend) (h1 : xstart ≤ x) (h2 : x ≤ xend) :
    table ytbl x xstart xend xstep = .ok (lookup ytbl x xstart xend xstep) := by
  rw [table, if_pos hord, if_neg (by push_neg; exact ⟨h1, h2⟩)]
  exact tabhl_ok ytbl x xstart xend xstep hlen

theorem table_cases (ytbl : List ℚ) (x xstart xend xstep : ℚ)
    (hlen : ytbl.length = expectedRange xstart xend xstep) :
    table ytbl x xstart xend xstep = .ok (lookup ytbl x xstart xend xstep) ∨
    table ytbl x xstart xend xstep = .error .DomainRangeError := by
  rw [table]
  by_cases hord : xstart < xend
  · rw [if_pos hord]
    by_cases hc : x < xstart ∨ xend < x
    · rw [if_pos hc]; right; rfl
    · rw [if_neg hc]; left; exact tabhl_ok ytbl x xstart xend xstep hlen
  · rw [if_neg hord]
    by_cases hc : x < xend ∨ xstart < x
    · rw [if_pos hc]; right; rfl
    · rw [if_neg hc]; left; exact tabhl_ok ytbl x xstart xend xstep hlen

end dynamo

namespace world2

theorem brmmt_tabhl (x : ℚ) : dynamo.tabhl brmmt x 0 5 1 = .ok (dynamo.lookup brmmt x 0 5 1) :=
  dynamo.tabhl_ok brmmt x 0 5 1 (by with_unfolding_all decide)

theorem drmmt_tabhl (x : ℚ) : dynamo.tabhl drmmt x 0 5 0.5 = .ok (dynamo.lookup drmmt x 0 5 0.5) :=
  dynamo.tabhl_ok drmmt x 0 5 0.5 (by with_unfolding_all decide)

theorem cimt_tabhl (x : ℚ) : dynamo.tabhl cimt x 0 5 1 = .ok (dynamo.lookup cimt x 0 5 1) :=
  dynamo.tabhl_ok cimt x 0 5 1 (by with_unfolding_all decide)

theorem polcmt_tabhl (x : ℚ) : dynamo.tabhl polcmt x 0 5 1 = .ok (dynamo.lookup polcmt x 0 5 1) :=
  dynamo.tabhl_ok polcmt x 0 5 1 (by with_unfolding_all decide)

theorem qlmt_tabhl (x : ℚ) : dynamo.tabhl qlmt x 0 5 1 = .ok (dynamo.lookup qlmt x 0 5 1) :=
  dynamo.tabhl_ok qlmt x 0 5 1 (by with_unfolding_all decide)

theorem nrmmt_tabhl (x : ℚ) : dynamo.tabhl nrmmt x 0 10 1 = .ok (dynamo.lookup nrmmt x 0 10 1) :=
  dynamo.tabhl_ok nrmmt x 0 10 1 (by with_unfolding_all decide)

theorem fpcit_tabhl (x : ℚ) : dynamo.tabhl fpcit x 0 6 1 = .ok (dynamo.lookup fpcit x 0 6 1) :=
  dynamo.tabhl_ok fpcit x 0 6 1 (by with_unfolding_all decide)

theorem drfmt_tabhl (x : ℚ) : dynamo.tabhl drfmt x 0 2 0.25 = .ok (dynamo.lookup drfmt x 0 2 0.25) :=
  dynamo.tabhl_ok drfmt x 0 2 0.25 (by with_unfolding_all decide)

theorem brfmt_tabhl (x : ℚ) : dynamo.tabhl brfmt x 0 4 1 = .ok (dynamo.lookup brfmt x 0 4 1) :=
  dynamo.tabhl_ok brfmt x 0 4 1 (by with_unfolding_all decide)

theorem cfifrt_tabhl (x : ℚ) : dynamo.tabhl cfifrt x 0 2 0.5 = .ok (dynamo.lookup cfifrt x 0 2 0.5) :=
  dynamo.tabhl_ok cfifrt x 0 2 0.5 (by with_unfolding_all decide)

theorem qlft_tabhl (x : ℚ) : dynamo.tabhl qlft x 0 4 1 = .ok (dynamo.lookup qlft x 0 4 1) :=
  dynamo.tabhl_ok qlft x 0 4 1 (by with_unfolding_all decide)

theorem ciqrt_tabhl (x : ℚ) : dynamo.tabhl ciqrt x 0 2 0.5 = .ok (dynamo.lookup ciqrt x 0 2 0.5) :=
  dynamo.tabhl_ok ciqrt x 0 2 0.5 (by with_unfolding_all decide)

/-- The auxiliary pass either succeeds with the total-value data flow or
fails with a DomainRangeError from one of the ten bounds-checked lookups;
it can never fail with a DomainSizeError because all 22 hard-coded tables
match their declared domains. -/
theorem aux_spec (c : constants) (k : snapshot) :
    auxiliaries c k = .ok (auxTotal c k) ∨ auxiliaries c k = .error .DomainRangeError := by
  unfold auxiliaries auxTotal
  simp only [brmmt_tabhl, drmmt_tabhl, cimt_tabhl, polcmt_tabhl, qlmt_tabhl, nrmmt_tabhl,
    fpcit_tabhl, drfmt_tabhl, brfmt_tabhl, cfifrt_tabhl, qlft_tabhl, ciqrt_tabhl,
    dynamo.ok_bind, dynamo.pure_eq_ok]
  rcases dynamo.table_cases nremt (k.nr / c.nri) 0 1 0.25
    (by with_unfolding_all decide) with h1 | h1
  · simp only [h1, dynamo.ok_bind]
    rcases dynamo.table_cases drcmt (k.p / (c.la * c.pdn)) 0 5 1
      (by with_unfolding_all decide) with h2 | h2
    · simp only [h2, dynamo.ok_bind]
      rcases dynamo.table_cases brcmt (k.p / (c.la * c.pdn)) 0 5 1
        (by with_unfolding_all decide) with h3 | h3
      · simp only [h3, dynamo.ok_bind]
        rcases dynamo.table_cases fcmt (k.p / (c.la * c.pdn)) 0 5 1
          (by with_unfolding_all decide) with h4 | h4
        · simp only [h4, dynamo.ok_bind]
          rcases dynamo.table_cases qlct (k.p / (c.la * c.pdn)) 0 5 0.5
            (by with_unfolding_all decide) with h5 | h5
          · simp only [h5, dynamo.ok_bind]
            rcases dynamo.table_cases fpmt (k.pol / c.pols) 0 60 10
              (by with_unfolding_all decide) with h6 | h6
            · simp only [h6, dynamo.ok_bind]
              rcases dynamo.table_cases drpmt (k.pol / c.pols) 0 60 10
                (by with_unfolding_all decide) with h7 | h7
              · simp only [h7, dynamo.ok_bind]
                rcases dynamo.table_cases brpmt (k.pol / c.pols) 0 60 10
                  (by with_unfolding_all decide) with h8 | h8
                · simp only [h8, dynamo.ok_bind]
                  rcases dynamo.table_cases polatt (k.pol / c.pols) 0 60 10
                    (by with_unfolding_all decide) with h9 | h9
                  · simp only [h9, dynamo.ok_bind]
                    rcases dynamo.table_cases qlpt (k.pol / c.pols) 0 60 10
                      (by with_unfolding_all decide) with h10 | h10
                    · simp only [h10, dynamo.ok_bind]
                      exact Or.inl trivial
                    · simp only [h10, dynamo.error_bind]
                      exact Or.inr trivial
                  · simp only [h9, dynamo.error_bind]
                    exact Or.inr trivial
                · simp only [h8, dynamo.error_bind]
                  exact Or.inr trivial
              · simp only [h7, dynamo.error_bind]
                exact Or.inr trivial
            · simp only [h6, dynamo.error_bind]
              exact Or.inr trivial
          · simp only [h5, dynamo.error_bind]
            exact Or.inr trivial
        · simp only [h4, dynamo.error_bind]
          exact Or.inr trivial
      · simp only [h3, dynamo.error_bind]
        exact Or.inr trivial
    · simp only [h2, dynamo.error_bind]
      exact Or.inr trivial
  · simp only [h1, dynamo.error_bind]
    exact Or.inr trivial

/-- When the three driving ratios of the bounds-checked lookups lie inside
their calibrated domains, the auxiliary pass succeeds. -/
theorem aux_ok (c : constants) (k : snapshot)
    (h1 : 0 ≤ k.nr / c.nri) (h2 : k.nr / c.nri ≤ 1)
    (h3 : 0 ≤ k.p / (c.la * c.pdn)) (h4 : k.p / (c.la * c.pdn) ≤ 5)
    (h5 : 0 ≤ k.pol / c.pols) (h6 : k.pol / c.pols ≤ 60) :
    auxiliaries c k = .ok (auxTotal c k) := by
  have e1 := dynamo.table_ok_asc nremt (k.nr / c.nri) 0 1 0.25
    (by with_unfolding_all decide) (by norm_num) h1 h2
  have e2 := dynamo.table_ok_asc drcmt (k.p / (c.la * c.pdn)) 0 5 1
    (by with_unfolding_all decide) (by norm_num) h3 h4
  have e3 := dynamo.table_ok_asc brcmt (k.p / (c.la * c.pdn)) 0 5 1
    (by with_unfolding_all decide) (by norm_num) h3 h4
  have e4 := dynamo.table_ok_asc fcmt (k.p / (c.la * c.pdn)) 0 5 1
    (by with_unfolding_all decide) (by norm_num) h3 h4
  have e5 := dynamo.table_ok_asc qlct (k.p / (c.la * c.pdn)) 0 5 0.5
    (by with_unfolding_all decide) (by norm_num) h3 h4
  have e6 := dynamo.table_ok_asc fpmt (k.pol / c.pols) 0 60 10
    (by with_unfolding_all decide) (by norm_num) h5 h6
  have e7 := dynamo.table_ok_asc drpmt (k.pol / c.pols) 0 60 10
    (by with_unfolding_all decide) (by norm_num) h5 h6
  have e8 := dynamo.table_ok_asc brpmt (k.pol / c.pols) 0 60 10
    (by with_unfolding_all decide) (by norm_num) h5 h6
  have e9 := dynamo.table_ok_asc polatt (k.pol / c.pols) 0 60 10
    (by with_unfolding_all decide) (by norm_num) h5 h6
  have e10 := dynamo.table_ok_asc qlpt (k.pol / c.pols) 0 60 10
    (by with_unfolding_all decide) (by norm_num) h5 h6
  unfold auxiliaries auxTotal
  simp only [e1, e2, e3, e4, e5, e6, e7, e8, e9, e10,
    brmmt_tabhl, drmmt_tabhl, cimt_tabhl, polcmt_tabhl, qlmt_tabhl, nrmmt_tabhl,
    fpcit_tabhl, drfmt_tabhl, brfmt_tabhl, cfifrt_tabhl, qlft_tabhl, ciqrt_tabhl,
    dynamo.ok_bind, dynamo.pure_eq_ok]

/-- The snapshot computation either succeeds with the three-stage data flow
or fails with a DomainRangeError. -/
theorem tick_spec (c : constants) (prev : Option snapshot) :
    tick c prev = .ok (rates c (auxTotal c (levels c prev))) ∨
    tick c prev = .error .DomainRangeError := by
  rcases aux_spec c (levels c prev) with h | h
  · left
    unfold tick
    simp only [h, dynamo.ok_bind, dynamo.pure_eq_ok]
  · right
    unfold tick
    simp only [h, dynamo.error_bind]

/-- The snapshot computation succeeds whenever the three driving ratios of
the bounds-checked lookups are within their calibrated domains. -/
theorem tick_ok (c : constants) (prev : Option snapshot)
    (h1 : 0 ≤ (levels c prev).nr / c.nri) (h2 : (levels c prev).nr / c.nri ≤ 1)
    (h3 : 0 ≤ (levels c prev).p / (c.la * c.pdn))
    (h4 : (levels c prev).p / (c.la * c.pdn) ≤ 5)
    (h5 : 0 ≤ (levels c prev).pol / c.pols) (h6 : (levels c prev).pol / c.pols ≤ 60) :
    tick c prev = .ok (rates c (auxTotal c (levels c prev))) := by
  unfold tick
  simp only [aux_ok c (levels c prev) h1 h2 h3 h4 h5 h6, dynamo.ok_bind, dynamo.pure_eq_ok]

end world2

namespace dynamo

theorem interpolate_grid (ytbl : List ℚ) (xstart xstep : ℚ) (hstep : xstep ≠ 0)
    (i range : ℕ) :
    interpolate ytbl (xstart + i * xstep) xstart xstep range = ytbl.getD i 0 := by
  unfold interpolate
  have hx : (xstart + (i : ℚ) * xstep - xstart) / xstep = ((i : ℕ) : ℚ) := by
    field_simp
  simp only [hx, Int.floor_natCast, Int.toNat_natCast]
  rcases eq_or_ne i (range - 1) with h | h
  · rw [if_pos h]
  · rw [if_neg h, show xstart + (i : ℚ) * xstep - xstart - xstep * (i : ℚ) = 0 from by ring,
      zero_mul, zero_div, add_zero]

theorem interpolate_mid (ytbl : List ℚ) (xstart xstep : ℚ) (hstep : xstep ≠ 0)
    (i range : ℕ) (hir : i + 1 < range) :
    interpolate ytbl (xstart + i * xstep + xstep / 2) xstart xstep range =
      (ytbl.getD i 0 + ytbl.getD (i + 1) 0) / 2 := by
  unfold interpolate
  have hx : (xstart + (i : ℚ) * xstep + xstep / 2 - xstart) / xstep = (i : ℚ) + 1 / 2 := by
    field_simp
    ring
  have hfl : ⌊(i : ℚ) + 1 / 2⌋ = (i : ℤ) := by
    rw [Int.floor_eq_iff]
    constructor
    · push_cast
      linarith
    · push_cast
      linarith
  simp only [hx, hfl, Int.toNat_natCast]
  have hne : i ≠ range - 1 := by omega
  rw [if_neg hne,
    show xstart + (i : ℚ) * xstep + xstep / 2 - xstart - xstep * (i : ℚ) = xstep / 2 from by ring]
  field_simp
  ring

end dynamo

/-- C3: for every table whose length matches its declared domain, the clamped
lookup tabhl with x outside the domain returns a boundary entry and never
fails: ascending (xstart < xend): x below xstart gives the first entry and x
above xend the last; descending (xend < xstart) is mirrored.  The first entry
ytbl[0] is embedded as ytbl.headD 0 and the last, ytbl.back(), as
ytbl.getLastD 0. -/
theorem C3_tabhl_clamps (ytbl : List ℚ) (x xstart xend xstep : ℚ)
    (hlen : ytbl.length = dynamo.expectedRange xstart xend xstep) :
    (xstart < xend →
      (x < xstart → dynamo.tabhl ytbl x xstart xend xstep = .ok (ytbl.headD 0)) ∧
      (xend < x → dynamo.tabhl ytbl x xstart xend xstep = .ok (ytbl.getLastD 0))) ∧
    (xend < xstart →
      (x < xend → dynamo.tabhl ytbl x xstart xend xstep = .ok (ytbl.getLastD 0)) ∧
      (xstart < x → dynamo.tabhl ytbl x xstart xend xstep = .ok (ytbl.headD 0))) := by
  rw [dynamo.tabhl_ok ytbl x xstart xend xstep hlen]
  unfold dynamo.lookup dynamo.tabhlBody
  constructor
  · intro hord
    constructor
    · intro hx
      rw [if_pos hord, if_pos hx]
    · intro hx
      rw [if_pos hord, if_neg (not_lt.mpr (le_of_lt (lt_trans hord hx))), if_pos hx]
  · intro hord
    constructor
    · intro hx
      rw [if_neg (not_lt.mpr hord.le), if_pos hx]
    · intro hx
      rw [if_neg (not_lt.mpr hord.le), if_neg (not_lt.mpr (le_of_lt (lt_trans hord hx))),
        if_pos hx]

/-- C3 witness: concrete clamps on an ascending and a descending table. -/
theorem C3_witness :
    dynamo.tabhl [1.04, 0.85, 0.6, 0.3, 0.15, 0.05, 0.02] (-5) 0 60 10 = .ok 1.04 ∧
    dynamo.tabhl [1.04, 0.85, 0.6, 0.3, 0.15, 0.05, 0.02] 70 0 60 10 = .ok 0.02 ∧
    dynamo.tabhl [1, 2] 2.5 4 3 (-1) = .ok 2 ∧
    dynamo.tabhl [1, 2] 5 4 3 (-1) = .ok 1 := by
  have ha := C3_tabhl_clamps [1.04, 0.85, 0.6, 0.3, 0.15, 0.05, 0.02] (-5) 0 60 10
    (by with_unfolding_all decide)
  have hb := C3_tabhl_clamps [1.04, 0.85, 0.6, 0.3, 0.15, 0.05, 0.02] 70 0 60 10
    (by with_unfolding_all decide)
  have hc := C3_tabhl_clamps [1, 2] 2.5 4 3 (-1) (by with_unfolding_all decide)
  have hd := C3_tabhl_clamps [1, 2] 5 4 3 (-1) (by with_unfolding_all decide)
  exact ⟨(ha.1 (by norm_num)).1 (by norm_num), (hb.1 (by norm_num)).2 (by norm_num),
    (hc.2 (by norm_num)).1 (by norm_num), (hd.2 (by norm_num)).2 (by norm_num)⟩

/-- C4: the bounds-checked lookup fails with DomainRangeError exactly when x
is strictly outside the closed domain interval, for both orientations, and
for every x in the closed interval it computes the same result as tabhl on
the same arguments. -/
theorem C4_table_range_check (ytbl : List ℚ) (x xstart xend xstep : ℚ) :
    (dynamo.table ytbl x xstart xend xstep = .error .DomainRangeError ↔
      (x < min xstart xend ∨ max xstart xend < x)) ∧
    (min xstart xend ≤ x → x ≤ max xstart xend →
      dynamo.table ytbl x xstart xend xstep = dynamo.tabhl ytbl x xstart xend xstep) := by
  have htabhl : ∀ e : Err, dynamo.tabhl ytbl x xstart xend xstep = .error e →
      e = .DomainSizeError := by
    intro e he
    by_cases hl : ytbl.length = dynamo.expectedRange xstart xend xstep
    · rw [dynamo.tabhl_ok ytbl x xstart xend xstep hl] at he
      cases he
    · rw [dynamo.tabhl_size_error ytbl x xstart xend xstep hl] at he
      injection he with he
      exact he.symm
  by_cases hord : xstart < xend
  · rw [show min xstart xend = xstart from min_eq_left hord.le,
      show max xstart xend = xend from max_eq_right hord.le]
    constructor
    · rw [dynamo.table, if_pos hord]
      by_cases hc : x < xstart ∨ xend < x
      · rw [if_pos hc]
        simp only [hc, iff_true]
      · rw [if_neg hc]
        constructor
        · intro htab
          exact absurd (htabhl _ htab) (by intro h; cases h)
        · intro hx
          exact absurd hx hc
    · intro hx1 hx2
      rw [dynamo.table, if_pos hord, if_neg (by push_neg; exact ⟨hx1, hx2⟩)]
  · have hle : xend ≤ xstart := not_lt.mp hord
    rw [show min xstart xend = xend from min_eq_right hle,
      show max xstart xend = xstart from max_eq_left hle]
    constructor
    · rw [dynamo.table, if_neg hord]
      by_cases hc : x < xend ∨ xstart < x
      · rw [if_pos hc]
        simp only [hc, iff_true]
      · rw [if_neg hc]
        constructor
        · intro htab
          exact absurd (htabhl _ htab) (by intro h; cases h)
        · intro hx
          exact absurd hx hc
    · intro hx1 hx2
      rw [dynamo.table, if_neg hord, if_neg (by push_neg; exact ⟨hx1, hx2⟩)]

/-- C4 witness: at the in-domain point 25 of the ascending domain 0..60 the
bounds-checked lookup agrees with tabhl, and at the out-of-domain point 70 it
fails with DomainRangeError. -/
theorem C4_witness :
    min (0 : ℚ) 60 ≤ 25 ∧ (25 : ℚ) ≤ max (0 : ℚ) 60 ∧
    dynamo.table [1.04, 0.85, 0.6, 0.3, 0.15, 0.05, 0.02] 25 0 60 10 =
      dynamo.tabhl [1.04, 0.85, 0.6, 0.3, 0.15, 0.05, 0.02] 25 0 60 10 ∧
    dynamo.table [1.04, 0.85, 0.6, 0.3, 0.15, 0.05, 0.02] 70 0 60 10 =
      .error .DomainRangeError := by
  refine ⟨by norm_num, by norm_num,
    (C4_table_range_check [1.04, 0.85, 0.6, 0.3, 0.15, 0.05, 0.02] 25 0 60 10).2
      (by norm_num) (by norm_num),
    (C4_table_range_check [1.04, 0.85, 0.6, 0.3, 0.15, 0.05, 0.02] 70 0 60 10).1.mpr
      (by norm_num)⟩

/-- C5 counterexample, one concrete input per defect of the claim.  First
defect: the code checks the length against the truncation of
(xEnd - xStart)/xStep + 1 (here 3 for domain 0..2.6 step 1), not against
round((xEnd - xStart)/xStep) + 1 (here 4), so a 3-entry table over that
domain succeeds where the claim demands a DomainSizeError.  Second defect:
in the bounds-checked lookup the x-range check runs before the size check,
so a 6-entry table over domain 0..1 step 0.25 (expected length 5) called at
the out-of-domain x = 10 fails with DomainRangeError, not the
DomainSizeError the claim requires regardless of x. -/
theorem C5_counterexample :
    dynamo.tabhl [1, 1, 1] 0 0 2.6 1 = .ok 1 ∧
    dynamo.table [1, 1, 1, 1, 1, 1] 10 0 1 0.25 = .error .DomainRangeError := by
  constructor
  · with_unfolding_all decide
  · with_unfolding_all decide

/-- C5 amended: for every call to tabhl with a supplied table whose length
does not equal the integer truncation of (xEnd - xStart)/xStep + 1, the call
fails with DomainSizeError before any interpolation, regardless of x; the
same holds for table whenever x lies inside the closed domain interval (for
x outside it, the range check of table fires first). -/
theorem C5_size_check (ytbl : List ℚ) (x xstart xend xstep : ℚ)
    (h : ytbl.length ≠ dynamo.expectedRange xstart xend xstep) :
    dynamo.tabhl ytbl x xstart xend xstep = .error .DomainSizeError ∧
    (min xstart xend ≤ x → x ≤ max xstart xend →
      dynamo.table ytbl x xstart xend xstep = .error .DomainSizeError) := by
  constructor
  · exact dynamo.tabhl_size_error ytbl x xstart xend xstep h
  · intro h1 h2
    by_cases hord : xstart < xend
    · rw [min_eq_left hord.le] at h1
      rw [max_eq_right hord.le] at h2
      rw [dynamo.table, if_pos hord, if_neg (by push_neg; exact ⟨h1, h2⟩)]
      exact dynamo.tabhl_size_error ytbl x xstart xend xstep h
    · have hle := not_lt.mp hord
      rw [min_eq_right hle] at h1
      rw [max_eq_left hle] at h2
      rw [dynamo.table, if_neg hord, if_neg (by push_neg; exact ⟨h1, h2⟩)]
      exact dynamo.tabhl_size_error ytbl x xstart xend xstep h

/-- C5 witness: a 3-entry table over the domain 0..1 step 0.25, whose
expected length is 5, fails with DomainSizeError through tabhl at any x and
through table at the in-domain x = 0.5. -/
theorem C5_witness :
    ([1, 1, 1] : List ℚ).length = 3 ∧ dynamo.expectedRange 0 1 0.25 = 5 ∧
    dynamo.tabhl [1, 1, 1] 0.5 0 1 0.25 = .error .DomainSizeError ∧
    dynamo.table [1, 1, 1] 0.5 0 1 0.25 = .error .DomainSizeError := by
  have h := C5_size_check [1, 1, 1] 0.5 0 1 0.25 (by with_unfolding_all decide)
  exact ⟨rfl, by with_unfolding_all decide, h.1, h.2 (by norm_num) (by norm_num)⟩

/-- C6: over any well-formed table (length matching the declared domain, for
an ascending domain with positive step or a descending domain with negative
step), the bounds-checked lookup returns exactly T[i] at the grid point
xstart + i * xstep and exactly the average of T[i] and T[i+1] at the
midpoint of adjacent grid points; in particular, over the 7-entry table of
equation 41.1 on domain 0..60 step 10 it returns 0.45 at 25 and 0.023 at 59.
Rational arithmetic makes the equalities exact. -/
theorem C6_grid_and_midpoint (ytbl : List ℚ) (xstart xend xstep : ℚ) (i : ℕ)
    (hlen : ytbl.length = dynamo.expectedRange xstart xend xstep)
    (hcfg : (0 < xstep ∧ xstart < xend) ∨ (xstep < 0 ∧ xend < xstart)) :
    (i < ytbl.length →
      dynamo.table ytbl (xstart + i * xstep) xstart xend xstep = .ok (ytbl.getD i 0)) ∧
    (i + 1 < ytbl.length →
      dynamo.table ytbl (xstart + i * xstep + xstep / 2) xstart xend xstep =
        .ok ((ytbl.getD i 0 + ytbl.getD (i + 1) 0) / 2)) ∧
    dynamo.table [1.04, 0.85, 0.6, 0.3, 0.15, 0.05, 0.02] 25 0 60 10 = .ok 0.45 ∧
    dynamo.table [1.04, 0.85, 0.6, 0.3, 0.15, 0.05, 0.02] 59 0 60 10 = .ok 0.023 := by
  have hstepne : xstep ≠ 0 := by
    rcases hcfg with ⟨hs, _⟩ | ⟨hs, _⟩
    · exact hs.ne'
    · exact hs.ne
  have hr : 0 < (xend - xstart) / xstep := by
    rcases hcfg with ⟨hs, ho⟩ | ⟨hs, ho⟩
    · exact div_pos (by linarith) hs
    · exact div_pos_of_neg_of_neg (by linarith) hs
  have hkey : (ytbl.length : ℤ) = ⌊(xend - xstart) / xstep⌋ + 1 := by
    rw [hlen]
    unfold dynamo.expectedRange
    rw [Int.floor_add_one]
    have h0 : 0 ≤ ⌊(xend - xstart) / xstep⌋ := Int.floor_nonneg.mpr hr.le
    rw [Int.toNat_of_nonneg (by omega)]
  have hle_r : ∀ m : ℕ, m < ytbl.length → (m : ℚ) ≤ (xend - xstart) / xstep := by
    intro m hm
    have h1 : (m : ℤ) < (ytbl.length : ℤ) := by exact_mod_cast hm
    have h2 : (m : ℤ) ≤ ⌊(xend - xstart) / xstep⌋ := by omega
    exact_mod_cast Int.le_floor.mp h2
  have hbounds : ∀ t : ℚ, 0 ≤ t → t ≤ (xend - xstart) / xstep →
      min xstart xend ≤ xstart + t * xstep ∧ xstart + t * xstep ≤ max xstart xend := by
    intro t ht0 htr
    rcases hcfg with ⟨hs, ho⟩ | ⟨hs, ho⟩
    · rw [min_eq_left ho.le, max_eq_right ho.le]
      have hts := (le_div_iff₀ hs).mp htr
      constructor
      · nlinarith
      · linarith
    · rw [min_eq_right ho.le, max_eq_left ho.le]
      have hts := (le_div_iff_of_neg hs).mp htr
      constructor
      · linarith
      · nlinarith
  have htable : ∀ y : ℚ, min xstart xend ≤ y → y ≤ max xstart xend →
      dynamo.table ytbl y xstart xend xstep =
        .ok (dynamo.interpolate ytbl y xstart xstep
          (dynamo.expectedRange xstart xend xstep)) := by
    intro y h1 h2
    rcases hcfg with ⟨hs, ho⟩ | ⟨hs, ho⟩
    · rw [min_eq_left ho.le] at h1
      rw [max_eq_right ho.le] at h2
      rw [dynamo.table, if_pos ho, if_neg (by push_neg; exact ⟨h1, h2⟩),
        dynamo.tabhl_ok ytbl y xstart xend xstep hlen]
      unfold dynamo.lookup dynamo.tabhlBody
      rw [if_pos ho, if_neg (not_lt.mpr h1), if_neg (not_lt.mpr h2)]
    · rw [min_eq_right ho.le] at h1
      rw [max_eq_left ho.le] at h2
      rw [dynamo.table, if_neg (not_lt.mpr ho.le), if_neg (by push_neg; exact ⟨h1, h2⟩),
        dynamo.tabhl_ok ytbl y xstart xend xstep hlen]
      unfold dynamo.lookup dynamo.tabhlBody
      rw [if_neg (not_lt.mpr ho.le), if_neg (not_lt.mpr h1), if_neg (not_lt.mpr h2)]
  refine ⟨?_, ?_, by with_unfolding_all decide, by with_unfolding_all decide⟩
  · intro hi
    have hb := hbounds i (by positivity) (hle_r i hi)
    rw [htable _ hb.1 hb.2]
    rw [dynamo.interpolate_grid ytbl xstart xstep hstepne i _]
  · intro hi
    have ht2 : ((i : ℚ) + 1 / 2) ≤ (xend - xstart) / xstep := by
      have := hle_r (i + 1) hi
      push_cast at this
      linarith
    have hb := hbounds ((i : ℚ) + 1 / 2) (by positivity) ht2
    rw [show xstart + ((i : ℚ) + 1 / 2) * xstep = xstart + i * xstep + xstep / 2 from by ring]
      at hb
    rw [htable _ hb.1 hb.2]
    rw [dynamo.interpolate_mid ytbl xstart xstep hstepne i _ (by rw [← hlen]; exact hi)]

/-- C6 witness: grid point 1 and the midpoint between grid points 1 and 2 of
the equation 41.1 table. -/
theorem C6_witness :
    ([1.04, 0.85, 0.6, 0.3, 0.15, 0.05, 0.02] : List ℚ).length =
      dynamo.expectedRange 0 60 10 ∧
    dynamo.table [1.04, 0.85, 0.6, 0.3, 0.15, 0.05, 0.02] (0 + 1 * 10) 0 60 10 =
      .ok (([1.04, 0.85, 0.6, 0.3, 0.15, 0.05, 0.02] : List ℚ).getD 1 0) ∧
    dynamo.table [1.04, 0.85, 0.6, 0.3, 0.15, 0.05, 0.02] (0 + 1 * 10 + 10 / 2) 0 60 10 =
      .ok ((([1.04, 0.85, 0.6, 0.3, 0.15, 0.05, 0.02] : List ℚ).getD 1 0 +
        ([1.04, 0.85, 0.6, 0.3, 0.15, 0.05, 0.02] : List ℚ).getD 2 0) / 2) := by
  have h := C6_grid_and_midpoint [1.04, 0.85, 0.6, 0.3, 0.15, 0.05, 0.02] 0 60 10 1
    (by with_unfolding_all decide) (Or.inl ⟨by norm_num, by norm_num⟩)
  exact ⟨by with_unfolding_all decide, h.1 (by norm_num), h.2.1 (by norm_num)⟩

/-- C1: the first advance returns the snapshot whose five levels are the
initial constants with no integration step and whose time is the initial
time; every later advance returns a snapshot whose population, natural
resources, capital investment and pollution each equal the previous level
plus dt times the previous snapshot's net flow, with time advanced by dt. -/
theorem C1_euler_integration (c : world2.constants) :
    (∀ k : world2.snapshot, world2.tick c none = .ok k →
      k.p = c.pi ∧ k.nr = c.nri ∧ k.ci = c.cii ∧ k.pol = c.poli ∧
      k.ciaf = c.ciafi ∧ k.time = c.time) ∧
    (∀ j k : world2.snapshot, world2.tick c (some j) = .ok k →
      k.p = j.p + c.dt * (j.br - j.dr) ∧
      k.nr = j.nr + c.dt * (-j.nrur) ∧
      k.ci = j.ci + c.dt * (j.cig - j.cid) ∧
      k.pol = j.pol + c.dt * (j.polg - j.pola) ∧
      k.time = j.time + c.dt) := by
  constructor
  · intro k hk
    rcases world2.tick_spec c none with hs | hs
    · rw [hs] at hk
      injection hk with hk
      subst hk
      exact ⟨rfl, rfl, rfl, rfl, rfl, rfl⟩
    · rw [hs] at hk
      cases hk
  · intro j k hk
    rcases world2.tick_spec c (some j) with hs | hs
    · rw [hs] at hk
      injection hk with hk
      subst hk
      exact ⟨rfl, rfl, rfl, rfl, rfl⟩
    · rw [hs] at hk
      cases hk

/-- C1 witness: the default calibration; the first snapshot carries the
initial constants and the second one carries one Euler step. -/
theorem C1_witness :
    world2.tick world2.defaultConstants none = .ok world2.tick0 ∧
    world2.tick0.p = world2.defaultConstants.pi ∧
    world2.tick0.time = world2.defaultConstants.time ∧
    world2.tick world2.defaultConstants (some world2.tick0) = .ok world2.tick1 ∧
    world2.tick1.p = world2.tick0.p +
      world2.defaultConstants.dt * (world2.tick0.br - world2.tick0.dr) ∧
    world2.tick1.time = world2.tick0.time + world2.defaultConstants.dt := by
  have h0 : world2.tick world2.defaultConstants none = .ok world2.tick0 :=
    world2.tick_ok world2.defaultConstants none
      (by with_unfolding_all decide) (by with_unfolding_all decide)
      (by with_unfolding_all decide) (by with_unfolding_all decide)
      (by with_unfolding_all decide) (by with_unfolding_all decide)
  have h1 : world2.tick world2.defaultConstants (some world2.tick0) = .ok world2.tick1 :=
    world2.tick_ok world2.defaultConstants (some world2.tick0)
      (by with_unfolding_all decide) (by with_unfolding_all decide)
      (by with_unfolding_all decide) (by with_unfolding_all decide)
      (by with_unfolding_all decide) (by with_unfolding_all decide)
  refine ⟨h0, ?_, ?_, h1, ?_, ?_⟩
  · exact ((C1_euler_integration world2.defaultConstants).1 world2.tick0 h0).1
  · exact ((C1_euler_integration world2.defaultConstants).1 world2.tick0 h0).2.2.2.2.2
  · exact ((C1_euler_integration world2.defaultConstants).2 world2.tick0 world2.tick1 h1).1
  · exact ((C1_euler_integration world2.defaultConstants).2 world2.tick0 world2.tick1
      h1).2.2.2.2

/-- C2: on a non-first advance the new agriculture fraction is the
first-order relaxation driven by the previous snapshot's stored cfifr and
ciqr auxiliaries, and these two are the only stored auxiliaries the tick
consumes: two previous snapshots agreeing on the levels, the rates, the
time and cfifr and ciqr produce identical ticks, whatever their other 26
stored auxiliary values are (those are recomputed at the current tick). -/
theorem C2_ciaf_one_step_lag (c : world2.constants) (j k : world2.snapshot)
    (h : world2.tick c (some j) = .ok k) (jp : world2.snapshot)
    (hp : jp.p = j.p) (hnr : jp.nr = j.nr) (hci : jp.ci = j.ci)
    (hpol : jp.pol = j.pol) (hciaf : jp.ciaf = j.ciaf)
    (hbr : jp.br = j.br) (hdr : jp.dr = j.dr) (hcig : jp.cig = j.cig)
    (hcid : jp.cid = j.cid) (hnrur : jp.nrur = j.nrur)
    (hpolg : jp.polg = j.polg) (hpola : jp.pola = j.pola)
    (hcfifr : jp.cfifr = j.cfifr) (hciqr : jp.ciqr = j.ciqr)
    (htime : jp.time = j.time) :
    k.ciaf = j.ciaf + (c.dt / c.ciaft) * ((j.cfifr * j.ciqr) - j.ciaf) ∧
    world2.tick c (some jp) = world2.tick c (some j) := by
  constructor
  · rcases world2.tick_spec c (some j) with hs | hs
    · rw [hs] at h
      injection h with h
      subst h
      rfl
    · rw [hs] at h
      cases h
  · have hlev : world2.levels c (some jp) = world2.levels c (some j) := by
      simp only [world2.levels]
      rw [hp, hnr, hci, hpol, hciaf, hbr, hdr, hcig, hcid, hnrur, hpolg, hpola,
        hcfifr, hciqr, htime]
    unfold world2.tick
    rw [hlev]

/-- C2 witness: the default second tick, against a previous snapshot whose
stored material standard of living was overwritten with 42: the tick is
unchanged, and the new agriculture fraction obeys the lagged relaxation. -/
theorem C2_witness :
    world2.tick1.ciaf = world2.tick0.ciaf +
      (world2.defaultConstants.dt / world2.defaultConstants.ciaft) *
        ((world2.tick0.cfifr * world2.tick0.ciqr) - world2.tick0.ciaf) ∧
    world2.tick world2.defaultConstants (some { world2.tick0 with msl := 42 }) =
      world2.tick world2.defaultConstants (some world2.tick0) := by
  have h1 : world2.tick world2.defaultConstants (some world2.tick0) = .ok world2.tick1 :=
    world2.tick_ok world2.defaultConstants (some world2.tick0)
      (by with_unfolding_all decide) (by with_unfolding_all decide)
      (by with_unfolding_all decide) (by with_unfolding_all decide)
      (by with_unfolding_all decide) (by with_unfolding_all decide)
  have h := C2_ciaf_one_step_lag world2.defaultConstants world2.tick0 world2.tick1 h1
    { world2.tick0 with msl := 42 } rfl rfl rfl rfl rfl rfl rfl rfl rfl rfl rfl rfl
    rfl rfl rfl
  exact h

/-- C7 counterexample: the pollution-absorption rate is not gated by any
time-gated switch.  Against the same previous snapshot, a parameter set
whose seven switch times all precede the current time and whose seven
after-switch policy values all differ from the defaults changes the
switch-gated rates (pollution generation strictly drops, since its
after-value halves) yet yields a pollution-absorption rate identical to the
default run: pola is computed as pol / polat with no clip, contradicting
the claim that each of the 7 rates is switch-gated. -/
theorem C7_counterexample :
    world2.tick world2.defaultConstants (some world2.tick0) = .ok world2.tick1 ∧
    world2.tick world2.policyConstants (some world2.tick0) = .ok world2.tick1policy ∧
    world2.tick1policy.pola = world2.tick1.pola ∧
    world2.tick1policy.polg < world2.tick1.polg := by
  refine ⟨world2.tick_ok world2.defaultConstants (some world2.tick0)
      (by with_unfolding_all decide) (by with_unfolding_all decide)
      (by with_unfolding_all decide) (by with_unfolding_all decide)
      (by with_unfolding_all decide) (by with_unfolding_all decide),
    world2.tick_ok world2.policyConstants (some world2.tick0)
      (by with_unfolding_all decide) (by with_unfolding_all decide)
      (by with_unfolding_all decide) (by with_unfolding_all decide)
      (by with_unfolding_all decide) (by with_unfolding_all decide),
    by with_unfolding_all rfl, by with_unfolding_all decide⟩

/-- C7 amended: every advance computes the 7 rates of the returned snapshot
from that snapshot's own levels and auxiliaries; six of them (birth rate,
death rate, capital-investment generation and discard, natural-resource
usage, pollution generation) are gated by a time-gated clip switch at their
named switch year, while pollution absorption is pol / polat with no
switch. -/
theorem C7_rate_equations (c : world2.constants) (prev : Option world2.snapshot)
    (k : world2.snapshot) (h : world2.tick c prev = .ok k) :
    k.br = k.p * dynamo.clip c.brn c.brn1 c.swt1 k.time *
      k.brfm * k.brmm * k.brcm * k.brpm ∧
    k.nrur = k.p * dynamo.clip c.nrun c.nrun1 c.swt2 k.time * k.nrmm ∧
    k.dr = k.p * dynamo.clip c.drn c.drn1 c.swt3 k.time *
      k.drmm * k.drpm * k.drfm * k.drcm ∧
    k.cig = k.p * k.cim * dynamo.clip c.cign c.cign1 c.swt4 k.time ∧
    k.cid = k.ci * dynamo.clip c.cidn c.cidn1 c.swt5 k.time ∧
    k.polg = k.p * dynamo.clip c.poln c.poln1 c.swt6 k.time * k.polcm ∧
    k.pola = k.pol / k.polat := by
  rcases world2.tick_spec c prev with hs | hs
  · rw [hs] at h
    injection h with h
    subst h
    exact ⟨rfl, rfl, rfl, rfl, rfl, rfl, rfl⟩
  · rw [hs] at h
    cases h

/-- C7 witness: the default second tick satisfies the seven rate
equations. -/
theorem C7_witness :
    world2.tick world2.defaultConstants (some world2.tick0) = .ok world2.tick1 ∧
    world2.tick1.br = world2.tick1.p *
      dynamo.clip world2.defaultConstants.brn world2.defaultConstants.brn1
        world2.defaultConstants.swt1 world2.tick1.time *
      world2.tick1.brfm * world2.tick1.brmm * world2.tick1.brcm * world2.tick1.brpm ∧
    world2.tick1.pola = world2.tick1.pol / world2.tick1.polat := by
  have h1 : world2.tick world2.defaultConstants (some world2.tick0) = .ok world2.tick1 :=
    world2.tick_ok world2.defaultConstants (some world2.tick0)
      (by with_unfolding_all decide) (by with_unfolding_all decide)
      (by with_unfolding_all decide) (by with_unfolding_all decide)
      (by with_unfolding_all decide) (by with_unfolding_all decide)
  have h := C7_rate_equations world2.defaultConstants (some world2.tick0) world2.tick1 h1
  exact ⟨h1, h.1, h.2.2.2.2.2.2⟩

/-- C8: run_complete is false before any snapshot exists; once a snapshot is
stored it is true exactly when that snapshot's time strictly exceeds the end
time; and an advance from a stored snapshot still produces and returns its
snapshot, completion being re-evaluated only on the newly stored one. -/
theorem C8_run_complete (c : world2.constants) (j k : world2.snapshot)
    (w : world2.world)
    (hadv : world2.world.advance ⟨c, some j⟩ = (.ok k, w)) :
    world2.world.run_complete ⟨c, none⟩ = false ∧
    (world2.world.run_complete ⟨c, some j⟩ = true ↔ c.endtime < j.time) ∧
    w.run_complete = decide (c.endtime < k.time) := by
  refine ⟨rfl, ?_, ?_⟩
  · simp only [world2.world.run_complete, gt_iff_lt, decide_eq_true_eq]
  · unfold world2.world.advance at hadv
    rcases world2.tick_spec c (some j) with hs | hs
    · rw [hs] at hadv
      injection hadv with h1 h2
      injection h1 with h1
      subst h1
      subst h2
      rfl
    · rw [hs] at hadv
      injection hadv with h1 h2
      cases h1

/-- C8 witness: with the end time moved to 1900, the engine is incomplete
before any tick and while holding the first snapshot (time 1900, not
strictly past 1900); the advance that produces the snapshot at time 1900.2
still returns it, and only then is completion signaled. -/
theorem C8_witness :
    world2.world.run_complete ⟨world2.shortRunConstants, none⟩ = false ∧
    world2.world.run_complete ⟨world2.shortRunConstants, some world2.tick0⟩ = false ∧
    world2.world.advance ⟨world2.shortRunConstants, some world2.tick0⟩ =
      (.ok world2.tick1short, ⟨world2.shortRunConstants, some world2.tick1short⟩) ∧
    world2.world.run_complete
      ⟨world2.shortRunConstants, some world2.tick1short⟩ = true := by
  have hadv : world2.world.advance ⟨world2.shortRunConstants, some world2.tick0⟩ =
      (.ok world2.tick1short, ⟨world2.shortRunConstants, some world2.tick1short⟩) := by
    unfold world2.world.advance
    rw [world2.tick_ok world2.shortRunConstants (some world2.tick0)
      (by with_unfolding_all decide) (by with_unfolding_all decide)
      (by with_unfolding_all decide) (by with_unfolding_all decide)
      (by with_unfolding_all decide) (by with_unfolding_all decide)]
    rfl
  have h := C8_run_complete world2.shortRunConstants world2.tick0 world2.tick1short
    ⟨world2.shortRunConstants, some world2.tick1short⟩ hadv
  refine ⟨h.1, ?_, hadv, ?_⟩
  · with_unfolding_all decide
  · rw [h.2.2]
    with_unfolding_all decide

/-- C9: when an advance fails, the error of the failing lookup propagates
out unchanged and the engine is left exactly as it was: the stored previous
snapshot (and the whole engine state) is untouched, mirroring that the C++
assignment to the previous snapshot happens only after the whole
computation has succeeded. -/
theorem C9_error_rollback (w : world2.world) (e : Err)
    (h : (world2.world.advance w).1 = .error e) :
    (world2.world.advance w).2 = w ∧ world2.tick w.c w.j = .error e := by
  unfold world2.world.advance at h ⊢
  cases htick : world2.tick w.c w.j with
  | ok k =>
    rw [htick] at h
    simp at h
  | error er =>
    rw [htick] at h
    simp only at h
    injection h with h
    subst h
    exact ⟨rfl, rfl⟩

/-- C9 witness: under the enormous-initial-population parameter set the
first advance fails with DomainRangeError and the engine state is exactly
the constructed one, still holding no snapshot. -/
theorem C9_witness :
    (world2.world.advance ⟨world2.crowdedConstants, none⟩).1 =
      .error .DomainRangeError ∧
    (world2.world.advance ⟨world2.crowdedConstants, none⟩).2 =
      ⟨world2.crowdedConstants, none⟩ := by
  have h : (world2.world.advance ⟨world2.crowdedConstants, none⟩).1 =
      .error .DomainRangeError := by
    with_unfolding_all rfl
  exact ⟨h, (C9_error_rollback ⟨world2.crowdedConstants, none⟩ .DomainRangeError h).1⟩

/-- C10: each of the 22 hard-coded lookup tables used inside the tick has
exactly the length its declared domain and step demand, and consequently a
tick can only ever fail with DomainRangeError: the DomainSizeError branch of
tabhl is unreachable from the engine for every parameter set and every
previous snapshot. -/
theorem C10_size_error_unreachable :
    (world2.nremt.length = dynamo.expectedRange 0 1 0.25 ∧
     world2.brmmt.length = dynamo.expectedRange 0 5 1 ∧
     world2.drmmt.length = dynamo.expectedRange 0 5 0.5 ∧
     world2.drcmt.length = dynamo.expectedRange 0 5 1 ∧
     world2.brcmt.length = dynamo.expectedRange 0 5 1 ∧
     world2.fcmt.length = dynamo.expectedRange 0 5 1 ∧
     world2.qlct.length = dynamo.expectedRange 0 5 0.5 ∧
     world2.cimt.length = dynamo.expectedRange 0 5 1 ∧
     world2.fpmt.length = dynamo.expectedRange 0 60 10 ∧
     world2.drpmt.length = dynamo.expectedRange 0 60 10 ∧
     world2.brpmt.length = dynamo.expectedRange 0 60 10 ∧
     world2.polcmt.length = dynamo.expectedRange 0 5 1 ∧
     world2.polatt.length = dynamo.expectedRange 0 60 10 ∧
     world2.qlmt.length = dynamo.expectedRange 0 5 1 ∧
     world2.qlpt.length = dynamo.expectedRange 0 60 10 ∧
     world2.nrmmt.length = dynamo.expectedRange 0 10 1 ∧
     world2.fpcit.length = dynamo.expectedRange 0 6 1 ∧
     world2.drfmt.length = dynamo.expectedRange 0 2 0.25 ∧
     world2.brfmt.length = dynamo.expectedRange 0 4 1 ∧
     world2.cfifrt.length = dynamo.expectedRange 0 2 0.5 ∧
     world2.qlft.length = dynamo.expectedRange 0 4 1 ∧
     world2.ciqrt.length = dynamo.expectedRange 0 2 0.5) ∧
    ∀ (c : world2.constants) (prev : Option world2.snapshot) (e : Err),
      world2.tick c prev = .error e → e = .DomainRangeError := by
  constructor
  · with_unfolding_all decide
  · intro c prev e h
    rcases world2.tick_spec c prev with hs | hs
    · rw [hs] at h
      cases h
    · rw [hs] at h
      injection h with h
      exact h.symm

/-- C10 witness: the enormous-initial-population run fails on its first
tick, and the theorem identifies its error as the DomainRangeError kind. -/
theorem C10_witness :
    world2.tick world2.crowdedConstants none = .error .DomainRangeError ∧
    Err.DomainRangeError = .DomainRangeError := by
  have h : world2.tick world2.crowdedConstants none = .error .DomainRangeError := by
    with_unfolding_all rfl
  exact ⟨h, C10_size_error_unreachable.2 world2.crowdedConstants none .DomainRangeError h⟩
